import Mathlib

/-!
Shallow embedding of the AiGameCompanion repository (crates/overlay) in Lean 4,
together with theorems settling the claims about its specification.

Each definition mirrors one Rust item of the source; the source file and line
region are given in the doc comment.  Machine integers (u64, u32, u8) are
modelled as Nat (no overflow is reachable in the modelled operations), f32
configuration constants as Rat, Rust Option/Result as Option/Except, and
strings as Lean String (Rust str::len counts UTF-8 bytes, modelled by
String.utf8ByteSize where the byte count matters).
-/

namespace Companion

/-! ## Rust str primitives

Lean's built-in String functions walk UTF-8 byte positions and do not
reduce inside the kernel, so the Rust str primitives the overlay uses are
modelled directly over the string's character list (String.mk/String.toList
convert losslessly). -/

/-- str::to_uppercase (ASCII-relevant part, via Char.toUpper). -/
def strToUpper (s : String) : String := String.mk (s.toList.map Char.toUpper)

/-- str::to_lowercase (ASCII-relevant part, via Char.toLower). -/
def strToLower (s : String) : String := String.mk (s.toList.map Char.toLower)

/-- str::trim: drop leading and trailing whitespace. -/
def strTrim (s : String) : String :=
  String.mk
    (((s.toList.dropWhile Char.isWhitespace).reverse.dropWhile
        Char.isWhitespace).reverse)

/-- str::ends_with for a literal pattern. -/
def strEndsWith (s p : String) : Bool := p.toList.isSuffixOf s.toList

/-- Removing the last n characters (the .exe suffix is ASCII, so characters
and bytes agree). -/
def strDropRight (s : String) (n : Nat) : String :=
  String.mk (s.toList.take (s.toList.length - n))

/-! ## state.rs -/

/-- MessageRole, state.rs lines 4-8. -/
inductive MessageRole where
| user
| assistant
deriving DecidableEq, Repr

/-- ChatMessage, state.rs lines 10-14. -/
structure ChatMessage where
role : MessageRole
content : String
deriving DecidableEq, Repr

/-- AppState, state.rs lines 16-40.  u64 and u8 fields become Nat. -/
structure AppState where
visible : Bool := false
messages : List ChatMessage := []
input_buffer : String := ""
attach_screenshot : Bool := false
is_loading : Bool := false
error : Option String := none
request_generation : Nat := 0
streaming_response : String := ""
game_name : Option String := none
capture_pending : Bool := false
capture_wait_frames : Nat := 0
captured_screenshot : Option String := none
send_pending_capture : Bool := false
deriving DecidableEq, Repr

/-! ## config.rs -/

/-- GraphicsApi, config.rs lines 10-18. -/
inductive GraphicsApi where
| dx12
| dx11
| dx9
| opengl
deriving DecidableEq, Repr

/-- SafetyFilter, config.rs lines 69-80. -/
inductive SafetyFilter where
| off
| blockHigh
| blockMedium
| blockLow
deriving DecidableEq, Repr

/-- TranslationProvider, config.rs lines 149-154. -/
inductive TranslationProvider where
| gemini
| localProvider
deriving DecidableEq, Repr

/-- GameEntry, config.rs lines 62-67. -/
structure GameEntry where
name : Option String
process : String
deriving DecidableEq, Repr

/-- ApiConfig, config.rs lines 96-108. -/
structure ApiConfig where
key : String
model : String
max_tokens : Nat
system_prompt : String
safety_filter : SafetyFilter
deriving DecidableEq, Repr

/-- OverlayConfig, config.rs lines 110-127. -/
structure OverlayConfig where
graphics_api : Option GraphicsApi
hotkey : String
width : Rat
height : Rat
opacity : Rat
font_size : Rat
translate_hotkey : String
deriving DecidableEq, Repr

/-- CaptureConfig, config.rs lines 129-138. -/
structure CaptureConfig where
enabled : Bool
max_width : Nat
quality : Nat
deriving DecidableEq, Repr

/-- LoggingConfig, config.rs lines 140-146. -/
structure LoggingConfig where
enabled : Bool
directory : Option String
deriving DecidableEq, Repr

/-- LocalModelConfig, config.rs lines 158-164. -/
structure LocalModelConfig where
endpoint : String
model : String
deriving DecidableEq, Repr

/-- TranslationConfig, config.rs lines 178-188.  The Rust field `local` is
renamed `localModel` (`local` is a Lean keyword). -/
structure TranslationConfig where
enabled : Bool
target_language : String
provider : TranslationProvider
localModel : LocalModelConfig
deriving DecidableEq, Repr

/-- Config, config.rs lines 46-60. -/
structure Config where
api : ApiConfig
overlay : OverlayConfig
capture : CaptureConfig
logging : LoggingConfig
translation : TranslationConfig
games : List GameEntry
deriving DecidableEq, Repr

/-- default_model, config.rs line 206. -/
def default_model : String := "gemini-2.5-flash"

/-- default_max_tokens, config.rs line 207. -/
def default_max_tokens : Nat := 1024

/-- default_system_prompt, config.rs lines 208-212. -/
def default_system_prompt : String :=
  "You are a helpful game companion. Be concise and direct. When you see a screenshot, describe what you observe and provide actionable advice."

/-- default_safety_filter, config.rs line 94. -/
def default_safety_filter : SafetyFilter := SafetyFilter.off

/-- default_hotkey, config.rs line 213. -/
def default_hotkey : String := "F9"

/-- default_width, config.rs line 214. -/
def default_width : Rat := 500

/-- default_height, config.rs line 215. -/
def default_height : Rat := 400

/-- default_opacity, config.rs line 216. -/
def default_opacity : Rat := (85 : Rat) / 100

/-- default_font_size, config.rs line 217. -/
def default_font_size : Rat := 16

/-- default_translate_hotkey, config.rs line 218. -/
def default_translate_hotkey : String := "F10"

/-- default_capture_enabled, config.rs line 219. -/
def default_capture_enabled : Bool := true

/-- default_max_width, config.rs line 220. -/
def default_max_width : Nat := 1920

/-- default_quality, config.rs line 221. -/
def default_quality : Nat := 85

/-- default_logging_enabled, config.rs line 204. -/
def default_logging_enabled : Bool := true

/-- default_translation_enabled, config.rs line 190. -/
def default_translation_enabled : Bool := true

/-- default_target_language, config.rs line 191. -/
def default_target_language : String := "English"

/-- default_translation_provider, config.rs line 156. -/
def default_translation_provider : TranslationProvider := TranslationProvider.gemini

/-- default_local_endpoint, config.rs line 166. -/
def default_local_endpoint : String := "http://localhost:11434/v1/chat/completions"

/-- default_local_model, config.rs line 167. -/
def default_local_model : String := "minicpm-v"

/-- impl Default for ApiConfig, config.rs lines 223-233. -/
def ApiConfig.defaultImpl : ApiConfig :=
  { key := ""
    model := default_model
    max_tokens := default_max_tokens
    system_prompt := default_system_prompt
    safety_filter := default_safety_filter }

/-- impl Default for OverlayConfig, config.rs lines 235-247. -/
def OverlayConfig.defaultImpl : OverlayConfig :=
  { graphics_api := none
    hotkey := default_hotkey
    width := default_width
    height := default_height
    opacity := default_opacity
    font_size := default_font_size
    translate_hotkey := default_translate_hotkey }

/-- impl Default for CaptureConfig, config.rs lines 249-257. -/
def CaptureConfig.defaultImpl : CaptureConfig :=
  { enabled := default_capture_enabled
    max_width := default_max_width
    quality := default_quality }

/-- impl Default for LoggingConfig, config.rs lines 259-266. -/
def LoggingConfig.defaultImpl : LoggingConfig :=
  { enabled := default_logging_enabled
    directory := none }

/-- impl Default for LocalModelConfig, config.rs lines 169-176. -/
def LocalModelConfig.defaultImpl : LocalModelConfig :=
  { endpoint := default_local_endpoint
    model := default_local_model }

/-- impl Default for TranslationConfig, config.rs lines 193-202. -/
def TranslationConfig.defaultImpl : TranslationConfig :=
  { enabled := default_translation_enabled
    target_language := default_target_language
    provider := default_translation_provider
    localModel := LocalModelConfig.defaultImpl }

/-- Derived Default for Config (config.rs line 46 `derive(.., Default)`):
each field takes its own Default impl; `Vec` defaults to empty. -/
def Config.defaultImpl : Config :=
  { api := ApiConfig.defaultImpl
    overlay := OverlayConfig.defaultImpl
    capture := CaptureConfig.defaultImpl
    logging := LoggingConfig.defaultImpl
    translation := TranslationConfig.defaultImpl
    games := [] }

/-- Serde view of an ApiConfig section in a parsed TOML document: every field
optional, per the serde(default ...) attributes on config.rs lines 96-108. -/
structure ApiConfigPartial where
key : Option String := none
model : Option String := none
max_tokens : Option Nat := none
system_prompt : Option String := none
safety_filter : Option SafetyFilter := none

/-- Serde field-default merge for ApiConfig: a missing field takes the
function named by its serde(default) attribute (config.rs lines 96-108;
`key` has the bare attribute, so it takes String::default, the empty string). -/
def ApiConfigPartial.merge (p : ApiConfigPartial) : ApiConfig :=
  { key := p.key.getD ""
    model := p.model.getD default_model
    max_tokens := p.max_tokens.getD default_max_tokens
    system_prompt := p.system_prompt.getD default_system_prompt
    safety_filter := p.safety_filter.getD default_safety_filter }

/-- Serde view of an OverlayConfig section, config.rs lines 110-127. -/
structure OverlayConfigPartial where
graphics_api : Option GraphicsApi := none
hotkey : Option String := none
width : Option Rat := none
height : Option Rat := none
opacity : Option Rat := none
font_size : Option Rat := none
translate_hotkey : Option String := none

/-- Serde field-default merge for OverlayConfig, config.rs lines 110-127. -/
def OverlayConfigPartial.merge (p : OverlayConfigPartial) : OverlayConfig :=
  { graphics_api := p.graphics_api
    hotkey := p.hotkey.getD default_hotkey
    width := p.width.getD default_width
    height := p.height.getD default_height
    opacity := p.opacity.getD default_opacity
    font_size := p.font_size.getD default_font_size
    translate_hotkey := p.translate_hotkey.getD default_translate_hotkey }

/-- Serde view of a CaptureConfig section, config.rs lines 129-138. -/
structure CaptureConfigPartial where
enabled : Option Bool := none
max_width : Option Nat := none
quality : Option Nat := none

/-- Serde field-default merge for CaptureConfig, config.rs lines 129-138. -/
def CaptureConfigPartial.merge (p : CaptureConfigPartial) : CaptureConfig :=
  { enabled := p.enabled.getD default_capture_enabled
    max_width := p.max_width.getD default_max_width
    quality := p.quality.getD default_quality }

/-- Serde view of a LoggingConfig section, config.rs lines 140-146. -/
structure LoggingConfigPartial where
enabled : Option Bool := none
directory : Option String := none

/-- Serde field-default merge for LoggingConfig, config.rs lines 140-146. -/
def LoggingConfigPartial.merge (p : LoggingConfigPartial) : LoggingConfig :=
  { enabled := p.enabled.getD default_logging_enabled
    directory := p.directory }

/-- Serde view of a LocalModelConfig table, config.rs lines 158-164. -/
structure LocalModelConfigPartial where
endpoint : Option String := none
model : Option String := none

/-- Serde field-default merge for LocalModelConfig, config.rs lines 158-164. -/
def LocalModelConfigPartial.merge (p : LocalModelConfigPartial) : LocalModelConfig :=
  { endpoint := p.endpoint.getD default_local_endpoint
    model := p.model.getD default_local_model }

/-- Serde view of a TranslationConfig section, config.rs lines 178-188. -/
structure TranslationConfigPartial where
enabled : Option Bool := none
target_language : Option String := none
provider : Option TranslationProvider := none
localModel : Option LocalModelConfigPartial := none

/-- Serde field-default merge for TranslationConfig, config.rs lines 178-188;
the `local` table has the bare serde(default) attribute, so a missing table
takes LocalModelConfig::default() while a present one merges field-wise. -/
def TranslationConfigPartial.merge (p : TranslationConfigPartial) : TranslationConfig :=
  { enabled := p.enabled.getD default_translation_enabled
    target_language := p.target_language.getD default_target_language
    provider := p.provider.getD default_translation_provider
    localModel :=
      match p.localModel with
      | some q => q.merge
      | none => LocalModelConfig.defaultImpl }

/-- Serde view of a whole parsed config.toml document, config.rs lines 46-60:
every section optional. -/
structure ConfigPartial where
api : Option ApiConfigPartial := none
overlay : Option OverlayConfigPartial := none
capture : Option CaptureConfigPartial := none
logging : Option LoggingConfigPartial := none
translation : Option TranslationConfigPartial := none
games : Option (List GameEntry) := none

/-- Serde section-default merge for Config, config.rs lines 46-60: a missing
section takes the section type's Default impl (bare serde(default)), a
present one merges its own fields. -/
def ConfigPartial.merge (p : ConfigPartial) : Config :=
  { api := match p.api with | some q => q.merge | none => ApiConfig.defaultImpl
    overlay := match p.overlay with | some q => q.merge | none => OverlayConfig.defaultImpl
    capture := match p.capture with | some q => q.merge | none => CaptureConfig.defaultImpl
    logging := match p.logging with | some q => q.merge | none => LoggingConfig.defaultImpl
    translation := match p.translation with | some q => q.merge | none => TranslationConfig.defaultImpl
    games := p.games.getD [] }

/-- The successfully-parsed serde document for an empty config.toml: every
section absent. -/
def emptyDocument : ConfigPartial := {}

/-- The configuration snapshot obtained from an empty config file: serde
parses the empty document and merges in the defaults. -/
def snapshotFromEmptyFile : Config := emptyDocument.merge

/-- CONFIG initialisation on a file whose contents fail to parse, config.rs
lines 294-301: toml::from_str returns Err and the store falls back to
Config::default(). -/
def snapshotFromParseFailure : Config := Config.defaultImpl

/-- parse_vk_code, config.rs lines 268-285. -/
def parse_vk_code (hotkey : String) : Option Nat :=
  match strToUpper hotkey with
  | "F1" => some 0x70
  | "F2" => some 0x71
  | "F3" => some 0x72
  | "F4" => some 0x73
  | "F5" => some 0x74
  | "F6" => some 0x75
  | "F7" => some 0x76
  | "F8" => some 0x77
  | "F9" => some 0x78
  | "F10" => some 0x79
  | "F11" => some 0x7A
  | "F12" => some 0x7B
  | _ => none

/-! ## lib.rs (render loop) -/

/-- The virtual-key code VK_F9 (0x78) hardwired into the render callback. -/
def VK_F9 : Nat := 0x78

/-- The virtual-key code whose state lib.rs line 132 polls each frame:
`GetAsyncKeyState(VK_F9.0 as i32)`.  The configured hotkey name is not
consulted anywhere in the render path, so this is constant in the config. -/
def renderHotkeyVk (_cfg : Config) : Nat := VK_F9

/-- CompanionRenderLoop, lib.rs lines 84-96. -/
structure RenderLoopState where
f9_was_pressed : Bool := false
logged_first_render : Bool := false
deriving DecidableEq, Repr

/-- One invocation of CompanionRenderLoop::render, lib.rs lines 124-144,
on key-down input `f9_down`.  Returns the new per-loop state, the new shared
state and whether ui::draw_panel was invoked this frame.  The source has no
branch on capture_pending: the panel is drawn exactly when `visible` is
true after the hotkey edge detection. -/
def render (rl : RenderLoopState) (f9_down : Bool) (st : AppState) :
    RenderLoopState × AppState × Bool :=
  let st :=
    if f9_down && !rl.f9_was_pressed then { st with visible := !st.visible } else st
  let rl := { rl with f9_was_pressed := f9_down, logged_first_render := true }
  (rl, st, st.visible)

/-! ## api.rs -/

/-- MAX_HISTORY_MESSAGES, api.rs line 12. -/
def MAX_HISTORY_MESSAGES : Nat := 50

/-- The history-trimming step of send_message, api.rs lines 112-122. -/
def trimHistory (messages : List ChatMessage) : List ChatMessage :=
  if messages.length > MAX_HISTORY_MESSAGES then
    let start := messages.length - MAX_HISTORY_MESSAGES
    let start :=
      match messages.get? start with
      | some m => if m.role = MessageRole.assistant then start + 1 else start
      | none => start
    messages.drop start
  else
    messages

/-- StatusCode::is_success of the reqwest response, api.rs line 209:
true exactly for 2xx statuses. -/
def isSuccessStatus (status : Nat) : Bool :=
  200 ≤ status && status < 300

/-- The status-to-message mapping of send_message, api.rs lines 210-216. -/
def statusErrorMessage (code : Nat) : String :=
  match code with
  | 400 => "Bad request. Try a shorter message."
  | 403 => "Invalid API key. Check config.toml."
  | 429 => "Rate limited. Free tier allows ~250 requests/day."
  | 500 => "API server error. Try again."
  | 503 => "API server error. Try again."
  | c => "API error (HTTP " ++ toString c ++ ")."

/-- Externally visible effects performed by send_message before its
streaming loop. -/
inductive ApiEffect where
| stateRead
| stateWrite
| httpPost
deriving DecidableEq, Repr

/-- send_message up to and including the HTTP status check, api.rs lines
101-217, with the network abstracted by the eventual response status.
Returns the error send_message would return at this stage (none when it
proceeds to the streaming loop, modelled separately as the generation-guard
system) together with the ordered effects performed: the early key check
(lines 106-110) precedes every state access and the request; the only state
access before the request is the game_name read (line 163); the POST happens
at lines 193-199. -/
def send_message_pre (cfg : ApiConfig) (messages : List ChatMessage)
    (_screenshot : Option String) (status : Nat) :
    Option String × List ApiEffect :=
  if cfg.key = "" then
    (some "No API key configured. Add your key to config.toml.", [])
  else
    let _trimmed := trimHistory messages
    let effects := [ApiEffect.stateRead, ApiEffect.httpPost]
    if !isSuccessStatus status then
      (some (statusErrorMessage status), effects)
    else
      (none, effects)

/-! ## ui.rs -/

/-- Arguments of the RUNTIME.spawn(send_message ...) call, ui.rs
lines 166-167. -/
structure SpawnCall where
messages : List ChatMessage
screenshot : Option String
generation : Nat
deriving DecidableEq, Repr

/-- The send handler of draw_panel, ui.rs lines 125-196, run when Send is
pressed (or Enter without shift) with a non-empty trimmed input.
`captureResult` is the value capture::capture_screenshot() would return if
invoked this frame.  Returns the shared state after the handler and the
background spawn issued this frame (none when the input trimmed to empty).
The capture, when attach_screenshot is set, happens synchronously inside
the handler (lines 152-164) and the spawn always happens in the same frame
(line 166); the fields capture_pending, capture_wait_frames,
captured_screenshot and send_pending_capture are never touched. -/
def sendAction (st : AppState) (captureResult : Option String) :
    AppState × Option SpawnCall :=
  let text := strTrim st.input_buffer
  if text = "" then
    (st, none)
  else
    let st := { st with
      messages := st.messages ++ [{ role := MessageRole.user, content := text }]
      input_buffer := ""
      is_loading := true
      error := none
      request_generation := st.request_generation + 1
      streaming_response := "" }
    let gen := st.request_generation
    let stAndShot : AppState × Option String :=
      if st.attach_screenshot then
        match captureResult with
        | some data => (st, some data)
        | none =>
          ({ st with error := some "Screenshot capture failed — sending text only." }, none)
      else
        (st, none)
    (stAndShot.1,
     some { messages := stAndShot.1.messages, screenshot := stAndShot.2, generation := gen })

/-- The Cancel handler of draw_panel, ui.rs lines 102-116. -/
def cancelAction (st : AppState) : AppState :=
  let st :=
    if st.streaming_response ≠ "" then
      { st with
        streaming_response := ""
        messages := st.messages ++
          [{ role := MessageRole.assistant,
             content := st.streaming_response ++ " [cancelled]" }] }
    else st
  { st with
    is_loading := false
    request_generation := st.request_generation + 1
    error := some "Cancelled." }

/-- The Clear Chat handler of draw_panel, ui.rs lines 204-211. -/
def clearAction (st : AppState) : AppState :=
  { st with
    messages := []
    error := none
    is_loading := false
    streaming_response := ""
    request_generation := st.request_generation + 1 }

/-- A call of logging::log_exchange issued by the overlay. -/
structure LogCall where
user_msg : String
assistant_msg : String
deriving DecidableEq, Repr

/-- The completion body of the task spawned by the send handler, ui.rs
lines 166-195: once send_message resolves, the result is applied to the
shared state only when the captured generation is still current.  The
second component lists the logging::log_exchange calls the body issues:
the source issues none (ui.rs does not reference the logging module). -/
def taskComplete (gen : Nat) (st : AppState) (result : Except String String) :
    AppState × List LogCall :=
  if st.request_generation = gen then
    match result with
    | Except.ok response =>
      ({ st with
          messages := st.messages ++
            [{ role := MessageRole.assistant, content := response }]
          streaming_response := ""
          is_loading := false }, [])
    | Except.error err =>
      let st :=
        if st.streaming_response ≠ "" then
          { st with
            streaming_response := ""
            messages := st.messages ++
              [{ role := MessageRole.assistant, content := st.streaming_response }] }
        else st
      ({ st with error := some err, is_loading := false }, [])
  else
    (st, [])

/-! ## logging.rs -/

/-- The text block log_exchange appends for one exchange, logging.rs
lines 69-74, given the formatted time of day `now`. -/
def logExchangeEntry (now user_msg assistant_msg : String) : String :=
  "[" ++ now ++ "] You:\n" ++ user_msg ++ "\n\n[" ++ now ++ "] Sage:\n" ++
    assistant_msg ++ "\n\n"

/-! ## The generation-guard system (api.rs streaming loop and ui.rs task
completion interleaved with UI actions) -/

/-- A step of the background task spawned for generation g: a streamed
chunk write (api.rs lines 247-255) or the completion write-back (ui.rs
lines 166-195). -/
inductive TaskStep where
| chunk (txt : String)
| finish (result : Except String String)
deriving Repr

/-- A UI action interleaved with the task: each bumps request_generation
(send: ui.rs line 137; cancel: line 114; clear: line 210). -/
inductive UiStep where
| send (text : String)
| cancel
| clear
deriving DecidableEq, Repr

/-- One interleaved event of the generation-guard system. -/
inductive SysStep where
| task (s : TaskStep)
| ui (u : UiStep)
deriving Repr

/-- Effect of one event on the shared state, for the task spawned with
captured generation g.  A chunk with non-empty text takes the lock and
appends to streaming_response only if request_generation still equals g
(api.rs lines 250-254); an empty chunk text is skipped (api.rs line 247).
The completion write-back is guarded the same way (ui.rs line 170).
UI sends here model a plain send (no trimming concerns): the handler
behaviour of ui.rs lines 130-139. -/
def sysApply (g : Nat) (st : AppState) : SysStep → AppState
| SysStep.task (TaskStep.chunk txt) =>
  if txt ≠ "" ∧ st.request_generation = g then
    { st with streaming_response := st.streaming_response ++ txt }
  else st
| SysStep.task (TaskStep.finish result) => (taskComplete g st result).1
| SysStep.ui (UiStep.send text) =>
  { st with
    messages := st.messages ++ [{ role := MessageRole.user, content := text }]
    input_buffer := ""
    is_loading := true
    error := none
    request_generation := st.request_generation + 1
    streaming_response := "" }
| SysStep.ui UiStep.cancel => cancelAction st
| SysStep.ui UiStep.clear => clearAction st

/-- Whether the event writes to messages, streaming_response or error on
behalf of the task with captured generation g: true exactly when the
generation guard passes for a task step (a passing chunk writes
streaming_response; a passing completion writes messages or error). -/
def taskWrites (g : Nat) (st : AppState) : SysStep → Bool
| SysStep.task (TaskStep.chunk txt) => txt ≠ "" && st.request_generation = g
| SysStep.task (TaskStep.finish _) => st.request_generation = g
| SysStep.ui _ => false

/-- Run a list of events from a state. -/
def sysRun (g : Nat) (st : AppState) : List SysStep → AppState
| [] => st
| e :: rest => sysRun g (sysApply g st e) rest

/-- Number of task writes to messages, streaming_response or error along a
run. -/
def taskWriteCount (g : Nat) (st : AppState) : List SysStep → Nat
| [] => 0
| e :: rest =>
  (if taskWrites g st e then 1 else 0) + taskWriteCount g (sysApply g st e) rest

/-- Whether an event is a step of the background task. -/
def SysStep.isTask : SysStep → Bool
| SysStep.task _ => true
| SysStep.ui _ => false

/-! ## game_detect.rs -/

/-- A top-level window as seen by the EnumWindows callback, game_detect.rs
lines 70-99: the owning process id, its visibility, and its title text. -/
structure WindowInfo where
pid : Nat
visible : Bool
title : String
deriving DecidableEq, Repr

/-- One iteration of enum_window_callback, game_detect.rs lines 70-99:
skip windows of other processes, invisible windows and empty titles, and
keep the title strictly longer (in UTF-8 bytes, Rust str::len) than the
best so far. -/
def updateBestTitle (target : Nat) (best : String) (w : WindowInfo) : String :=
  if w.pid = target then
    if w.visible then
      if w.title.utf8ByteSize = 0 then best
      else if best.utf8ByteSize < w.title.utf8ByteSize then w.title
      else best
    else best
  else best

/-- The EnumWindows fold of name_from_window_title, game_detect.rs
lines 51-59: best_title starts empty and every window is offered. -/
def bestTitle (target : Nat) (ws : List WindowInfo) : String :=
  ws.foldl (updateBestTitle target) ""

/-- JUNK, game_detect.rs lines 108-117. -/
def JUNK : List String :=
  ["window", "default", "ime", "msctfime", "gdi+", "dwm", "desktop", "program manager"]

/-- is_usable_title, game_detect.rs lines 102-120. -/
def is_usable_title (title : String) : Bool :=
  if title.utf8ByteSize < 2 then false
  else !(JUNK.contains (strToLower title))

/-- name_from_window_title, game_detect.rs lines 51-68: trim the longest
title found and return it only when usable. -/
def name_from_window_title (target : Nat) (ws : List WindowInfo) : Option String :=
  let title := strTrim (bestTitle target ws)
  if is_usable_title title then some title else none

/-- name_from_config, game_detect.rs lines 38-48: the loop returns the
`name` field of the first entry whose process filename equals the current
exe name case-insensitively (returning none when that entry has no name). -/
def name_from_config (games : List GameEntry) (exe? : Option String) : Option String :=
  exe?.bind fun exe =>
    let exe_lower := strToLower exe
    (games.find? (fun g => strToLower g.process = exe_lower)).bind fun g => g.name

/-- strip_suffix(".exe").or_else(strip_suffix(".EXE")).unwrap_or, per
game_detect.rs lines 145-148. -/
def stripExeSuffix (s : String) : String :=
  if strEndsWith s ".exe" then strDropRight s 4
  else if strEndsWith s ".EXE" then strDropRight s 4
  else s

/-- name.replace(['-', '_'], " "), game_detect.rs line 155. -/
def replaceSeparators (s : String) : String :=
  String.mk (s.toList.map fun c => if c = '-' ∨ c = '_' then ' ' else c)

/-- Head-is-lowercase test used for the look-ahead chars.get(i+1),
game_detect.rs line 169. -/
def headIsLower : List Char → Bool
| [] => false
| c :: _ => c.isLower

/-- The camel-case space-insertion loop of name_from_exe for the positions
after the first, game_detect.rs lines 159-175, carrying the previous
character: a space is pushed before an uppercase character whose
predecessor is lowercase, or whose predecessor is uppercase while its
successor is lowercase. -/
def camelAux (prev : Char) : List Char → List Char
| [] => []
| c :: rest =>
  if c.isUpper && (prev.isLower || (prev.isUpper && headIsLower rest)) then
    ' ' :: c :: camelAux c rest
  else
    c :: camelAux c rest

/-- The whole camel-case loop, game_detect.rs lines 159-175: the condition
carries `i > 0`, so the first character is emitted unchanged. -/
def camelInsert : List Char → List Char
| [] => []
| c :: rest => c :: camelAux c rest

/-- The title-casing of one word, game_detect.rs lines 180-189. -/
def titleCaseWord (w : String) : String :=
  match w.toList with
  | [] => ""
  | c :: rest => String.mk (c.toUpper :: rest)

/-- Accumulating pass of split_whitespace: collect the current word (held
reversed) and break at whitespace runs, producing no empty segments. -/
def splitWsGo (cur : List Char) : List Char → List (List Char)
| [] => if cur = [] then [] else [cur.reverse]
| c :: rest =>
  if c.isWhitespace then
    if cur = [] then splitWsGo [] rest
    else cur.reverse :: splitWsGo [] rest
  else
    splitWsGo (c :: cur) rest

/-- split_whitespace, game_detect.rs line 179: split on whitespace and drop
empty segments. -/
def splitWhitespace (s : String) : List String :=
  (splitWsGo [] s.toList).map String.mk

/-- name_from_exe, game_detect.rs lines 141-198, as a function of the
executable filename returned by current_exe_name. -/
def name_from_exe (exe : String) : Option String :=
  let name := stripExeSuffix exe
  if name = "" then none
  else
    let name := replaceSeparators name
    let spaced := String.mk (camelInsert name.toList)
    let result := " ".intercalate ((splitWhitespace spaced).map titleCaseWord)
    if result = "" then none else some result

/-- detect_game_name, game_detect.rs lines 14-35: first non-none of the
three tiers.  `exe?` is the current_exe_name result (tiers 1 and 3 both
return none when it is none), `target` the current process id and `ws`
the enumerated top-level windows. -/
def detect_game_name (games : List GameEntry) (exe? : Option String)
    (target : Nat) (ws : List WindowInfo) : Option String :=
  match name_from_config games exe? with
  | some name => some name
  | none =>
    match name_from_window_title target ws with
    | some name => some name
    | none => exe?.bind name_from_exe

/-! ## Spec-side definitions (written from the claims' wording, for
comparison with the definitions above) -/

/-- The failure-mapping table exactly as the spec's table states it
(spec.md section 4.5): used to compare the claimed user-visible strings
with the ones the code returns. -/
def specStatusTable (code : Nat) : String :=
  match code with
  | 400 => "Bad request. Try a shorter message."
  | 403 => "Invalid API key."
  | 429 => "Rate limited."
  | 500 => "API server error. Try again."
  | 503 => "API server error. Try again."
  | c => "API error (HTTP " ++ toString c ++ ")."

/-- Character-by-character space insertion over a string, parametrised by a
break predicate on (previous character, current character, next
character). -/
def specSpacedGo (brk : Option Char → Char → Option Char → Bool) :
    Option Char → List Char → List Char
| _, [] => []
| prev?, c :: rest =>
  if brk prev? c rest.head? then
    ' ' :: c :: specSpacedGo brk (some c) rest
  else
    c :: specSpacedGo brk (some c) rest

/-- The break rule exactly as claim C7 words it: a space before every
uppercase letter that either follows a lowercase letter or precedes a
lowercase letter (no space can be inserted before the first character). -/
def claimBreak (prev? : Option Char) (c : Char) (next? : Option Char) : Bool :=
  prev?.isSome && c.isUpper &&
    (prev?.any Char.isLower || next?.any Char.isLower)

/-- The amended break rule: a space before every uppercase letter that
either follows a lowercase letter, or follows an uppercase letter while
preceding a lowercase letter. -/
def amendedBreak (prev? : Option Char) (c : Char) (next? : Option Char) : Bool :=
  prev?.isSome && c.isUpper &&
    (prev?.any Char.isLower || (prev?.any Char.isUpper && next?.any Char.isLower))

/-- The executable-name cleanup as described by the spec, parametrised by
the camel-case break rule: strip a .exe/.EXE suffix, replace separators by
spaces, insert spaces per the break rule, then title-case each
space-delimited word. -/
def specNameFromExe (brk : Option Char → Char → Option Char → Bool)
    (exe : String) : Option String :=
  let name := stripExeSuffix exe
  if name = "" then none
  else
    let name := replaceSeparators name
    let spaced := String.mk (specSpacedGo brk none name.toList)
    let result := " ".intercalate ((splitWhitespace spaced).map titleCaseWord)
    if result = "" then none else some result

/-- The cleanup with claim C7's break rule. -/
def specNameFromExeClaim : String → Option String := specNameFromExe claimBreak

/-- The cleanup with the amended break rule. -/
def specNameFromExeAmended : String → Option String := specNameFromExe amendedBreak

/-- Role alternation of a conversation starting with a user turn: the role
at every even position is user and at every odd position assistant. -/
def RolesAlternate (messages : List ChatMessage) : Prop :=
  ∀ i (h : i < messages.length),
    (messages.get ⟨i, h⟩).role =
      (if i % 2 = 0 then MessageRole.user else MessageRole.assistant)

instance (messages : List ChatMessage) : Decidable (RolesAlternate messages) := by
  unfold RolesAlternate
  infer_instance

/-! ## Theorems settling the claims -/

/-- Claim C8: a configuration file whose contents fail to parse yields a
snapshot equal, field by field, to the snapshot obtained from an empty
file, namely the full default snapshot. -/
theorem config_parse_failure_equals_empty_file :
    snapshotFromParseFailure.api = snapshotFromEmptyFile.api ∧
    snapshotFromParseFailure.overlay = snapshotFromEmptyFile.overlay ∧
    snapshotFromParseFailure.capture = snapshotFromEmptyFile.capture ∧
    snapshotFromParseFailure.logging = snapshotFromEmptyFile.logging ∧
    snapshotFromParseFailure.translation = snapshotFromEmptyFile.translation ∧
    snapshotFromParseFailure.games = snapshotFromEmptyFile.games ∧
    snapshotFromParseFailure = Config.defaultImpl :=
  ⟨rfl, rfl, rfl, rfl, rfl, rfl, rfl⟩

/-- Claim C10: when the configured API key is empty, send_message returns
the error string of api.rs line 109 and performs no effects at all: no
network request and no access to the shared application state. -/
theorem send_message_empty_key (cfg : ApiConfig) (messages : List ChatMessage)
    (screenshot : Option String) (status : Nat) (h : cfg.key = "") :
    send_message_pre cfg messages screenshot status =
      (some "No API key configured. Add your key to config.toml.", []) := by
  simp [send_message_pre, h]

/-- Witness for claim C10 at the default ApiConfig (whose key is empty). -/
theorem send_message_empty_key_witness :
    send_message_pre ApiConfig.defaultImpl [] none 200 =
      (some "No API key configured. Add your key to config.toml.", []) :=
  send_message_empty_key ApiConfig.defaultImpl [] none 200 (by rfl)

/-- Claim C4 counterexample: at status 403 the code returns
"Invalid API key. Check config.toml.", not the spec table's
"Invalid API key.", so the claimed mapping is false at this input. -/
theorem status_message_claim_counterexample :
    (send_message_pre { ApiConfig.defaultImpl with key := "k" } [] none 403).1 =
      some "Invalid API key. Check config.toml." ∧
    specStatusTable 403 = "Invalid API key." ∧
    ("Invalid API key. Check config.toml." : String) ≠ "Invalid API key." := by
  decide

/-- Claim C4 as amended: with a configured key, every unsuccessful status
makes send_message return exactly the code's mapping: 400 gives "Bad
request. Try a shorter message.", 403 gives "Invalid API key. Check
config.toml.", 429 gives "Rate limited. Free tier allows ~250
requests/day.", 500 and 503 give "API server error. Try again.", and every
other status gives the generic "API error (HTTP n)." string. -/
theorem status_message_mapping (cfg : ApiConfig) (messages : List ChatMessage)
    (screenshot : Option String) (status : Nat)
    (hkey : cfg.key ≠ "") (hstatus : isSuccessStatus status = false) :
    (send_message_pre cfg messages screenshot status).1 =
      some (statusErrorMessage status) ∧
    statusErrorMessage 400 = "Bad request. Try a shorter message." ∧
    statusErrorMessage 403 = "Invalid API key. Check config.toml." ∧
    statusErrorMessage 429 = "Rate limited. Free tier allows ~250 requests/day." ∧
    statusErrorMessage 500 = "API server error. Try again." ∧
    statusErrorMessage 503 = "API server error. Try again." ∧
    (∀ n : Nat, n ∉ ([400, 403, 429, 500, 503] : List Nat) →
      statusErrorMessage n = "API error (HTTP " ++ toString n ++ ").") := by
  refine ⟨?_, rfl, rfl, rfl, rfl, rfl, ?_⟩
  · simp [send_message_pre, hkey, hstatus]
  · intro n hn
    unfold statusErrorMessage
    split <;> simp_all

/-- Witness for claim C4's amended theorem at status 429. -/
theorem status_message_mapping_witness :
    (send_message_pre { ApiConfig.defaultImpl with key := "k" } [] none 429).1 =
      some "Rate limited. Free tier allows ~250 requests/day." :=
  (status_message_mapping { ApiConfig.defaultImpl with key := "k" } [] none 429
    (by decide) (by decide)).1

/-- Claim C5 counterexample: with the overlay hotkey configured as "F1",
the fixed table maps F1 to 0x70, yet the render callback still polls
0x78 (VK_F9, lib.rs line 132), so the claimed remapping is false. -/
theorem hotkey_remap_counterexample :
    parse_vk_code "F1" = some 0x70 ∧
    renderHotkeyVk
      { Config.defaultImpl with
        overlay := { OverlayConfig.defaultImpl with hotkey := "F1" } } = 0x78 ∧
    (0x78 : Nat) ≠ 0x70 := by
  decide

/-- Claim C5 as amended: the fixed table parse_vk_code maps F1 through F12
to virtual-key codes 0x70 through 0x7B and every unknown name to none, but
the render callback polls the constant VK_F9 (0x78) for every
configuration: the visibility toggle is not remappable. -/
theorem hotkey_table_and_fixed_toggle :
    (∀ cfg : Config, renderHotkeyVk cfg = 0x78) ∧
    parse_vk_code "F1" = some 0x70 ∧
    parse_vk_code "F2" = some 0x71 ∧
    parse_vk_code "F3" = some 0x72 ∧
    parse_vk_code "F4" = some 0x73 ∧
    parse_vk_code "F5" = some 0x74 ∧
    parse_vk_code "F6" = some 0x75 ∧
    parse_vk_code "F7" = some 0x76 ∧
    parse_vk_code "F8" = some 0x77 ∧
    parse_vk_code "F9" = some 0x78 ∧
    parse_vk_code "F10" = some 0x79 ∧
    parse_vk_code "F11" = some 0x7A ∧
    parse_vk_code "F12" = some 0x7B ∧
    (∀ s : String,
      strToUpper s ∉ (["F1", "F2", "F3", "F4", "F5", "F6", "F7", "F8", "F9",
        "F10", "F11", "F12"] : List String) →
      parse_vk_code s = none) := by
  refine ⟨fun _ => rfl, rfl, rfl, rfl, rfl, rfl, rfl, rfl, rfl, rfl, rfl, rfl, rfl, ?_⟩
  intro s hs
  unfold parse_vk_code
  split <;> simp_all

/-- Witness for claim C5's amended theorem: the default config still polls
0x78, and an unknown hotkey name maps to no binding. -/
theorem hotkey_table_and_fixed_toggle_witness :
    renderHotkeyVk Config.defaultImpl = 0x78 ∧ parse_vk_code "escape" = none := by
  obtain ⟨ha, _, _, _, _, _, _, _, _, _, _, _, _, hb⟩ := hotkey_table_and_fixed_toggle
  exact ⟨ha Config.defaultImpl, hb "escape" (by decide)⟩

/-- Claim C1, evaluated at the failing input: a send with Attach
Screenshot checked spawns the background request in the same frame with a
synchronously captured image, leaves capture_pending, capture_wait_frames,
captured_screenshot and send_pending_capture untouched, and the render
callback draws the panel even while capture_pending is set: the quiescing
handshake the claim (and state.rs's own field documentation) describes is
absent from draw_panel and render. -/
theorem send_with_screenshot_is_immediate :
    (let st0 : AppState :=
      { input_buffer := "what boss is this?", attach_screenshot := true,
        visible := true, request_generation := 0 }
     let r := sendAction st0 (some "IMG64")
     r.2.map SpawnCall.screenshot = some (some "IMG64") ∧
     r.2.map SpawnCall.generation = some 1 ∧
     r.1.capture_pending = false ∧
     r.1.capture_wait_frames = 0 ∧
     r.1.send_pending_capture = false ∧
     r.1.captured_screenshot = none) ∧
    (render { f9_was_pressed := false, logged_first_render := true } false
      { visible := true, capture_pending := true, capture_wait_frames := 2 }).2.2
      = true := by
  decide

/-- Claim C9, evaluated at the failing input: the success branch of the
chat task (ui.rs lines 166-195) commits the assistant reply to messages
but issues no logging::log_exchange call at all, so no exchange block is
appended to the session log; the block log_exchange itself would write has
the claimed speaker-and-timestamp shape. -/
theorem chat_success_appends_no_log :
    (let st0 : AppState :=
      { messages := [{ role := MessageRole.user, content := "hi" }],
        is_loading := true, request_generation := 1 }
     let r := taskComplete 1 st0 (Except.ok "Reply")
     r.1.messages =
      [{ role := MessageRole.user, content := "hi" },
       { role := MessageRole.assistant, content := "Reply" }] ∧
     r.1.is_loading = false ∧
     r.2 = []) ∧
    logExchangeEntry "12:00:00" "hi" "Reply" =
      "[12:00:00] You:\nhi\n\n[12:00:00] Sage:\nReply\n\n" := by
  decide

/-- The per-step camel-case break of game_detect.rs lines 162-175 agrees
with the amended neighbour rule at every position after the first. -/
theorem camelAux_eq_spec (l : List Char) :
    ∀ prev, camelAux prev l = specSpacedGo amendedBreak (some prev) l := by
  induction l with
  | nil => intro prev; rfl
  | cons c rest ih =>
    intro prev
    have hhead : headIsLower rest = rest.head?.any Char.isLower := by
      cases rest <;> rfl
    simp only [camelAux, specSpacedGo, amendedBreak, hhead, ih,
      Option.isSome_some, Option.any_some, Bool.true_and]

/-- The whole camel-case loop agrees with the amended neighbour rule (the
first character never receives a space). -/
theorem camelInsert_eq_spec (l : List Char) :
    camelInsert l = specSpacedGo amendedBreak none l := by
  cases l with
  | nil => rfl
  | cons c rest =>
    show c :: camelAux c rest = specSpacedGo amendedBreak none (c :: rest)
    have h : specSpacedGo amendedBreak none (c :: rest) =
        c :: specSpacedGo amendedBreak (some c) rest := by
      simp [specSpacedGo, amendedBreak]
    rw [h, camelAux_eq_spec]

/-- Claim C7 counterexample: on "Game2Dawn.exe" the code inserts no space
before the D (its predecessor is the digit 2, neither lowercase nor
uppercase), while the claimed rule (space before every uppercase letter
preceding a lowercase letter) yields "Game2 Dawn". -/
theorem name_cleanup_claim_counterexample :
    name_from_exe "Game2Dawn.exe" = some "Game2Dawn" ∧
    specNameFromExeClaim "Game2Dawn.exe" = some "Game2 Dawn" ∧
    (some "Game2Dawn" : Option String) ≠ some "Game2 Dawn" := by
  decide

/-- Claim C7 as amended: the cleanup strips a .exe/.EXE suffix, replaces
separators by spaces, inserts a space before every uppercase letter that
either follows a lowercase letter or follows an uppercase letter while
preceding a lowercase letter, and title-cases each space-delimited word;
the claim's example inputs all evaluate as stated. -/
theorem name_cleanup_amended :
    (∀ exe : String, name_from_exe exe = specNameFromExeAmended exe) ∧
    name_from_exe "DarkSoulsIII.exe" = some "Dark Souls III" ∧
    name_from_exe "horizon-zero-dawn.exe" = some "Horizon Zero Dawn" ∧
    name_from_exe "GAME.exe" = some "GAME" ∧
    name_from_exe "my_cool_game.exe" = some "My Cool Game" ∧
    name_from_exe ".exe" = none ∧
    name_from_exe "" = none := by
  refine ⟨?_, by decide, by decide, by decide, by decide, by decide, by decide⟩
  intro exe
  unfold name_from_exe specNameFromExeAmended specNameFromExe
  simp only [camelInsert_eq_spec]

/-- Claim C3: for every non-empty conversation whose roles alternate
starting with user, the trimmed slice sent to the remote has at most 50
messages, starts with a user message, and is a contiguous suffix of the
conversation in insertion order; above 50 messages the most recent 50 are
kept and the oldest survivor is additionally dropped when it is an
assistant message. -/
theorem trim_history_spec (messages : List ChatMessage)
    (halt : RolesAlternate messages) (hne : messages ≠ []) :
    (trimHistory messages).length ≤ MAX_HISTORY_MESSAGES ∧
    (∃ m rest, trimHistory messages = m :: rest ∧ m.role = MessageRole.user) ∧
    trimHistory messages <:+ messages ∧
    (messages.length > MAX_HISTORY_MESSAGES →
      trimHistory messages =
        (let keep := messages.drop (messages.length - MAX_HISTORY_MESSAGES)
         if keep.head?.any (fun m => m.role == MessageRole.assistant) then keep.tail
         else keep)) := by
  have h50 : MAX_HISTORY_MESSAGES = 50 := rfl
  by_cases hlen : messages.length > MAX_HISTORY_MESSAGES
  · have hstart : messages.length - MAX_HISTORY_MESSAGES < messages.length := by omega
    set start := messages.length - MAX_HISTORY_MESSAGES with hstartdef
    have hget : messages.get? start = some (messages.get ⟨start, hstart⟩) :=
      List.get?_eq_get hstart
    have hrole := halt start hstart
    have hkeep : messages.drop start = messages.get ⟨start, hstart⟩ :: messages.drop (start + 1) :=
      List.drop_eq_getElem_cons hstart
    have hh : (messages.drop start).head? = some (messages.get ⟨start, hstart⟩) := by
      rw [hkeep]; rfl
    by_cases hpar : start % 2 = 0
    · -- oldest survivor is a user message: keep all 50
      have hu : (messages.get ⟨start, hstart⟩).role = MessageRole.user := by
        rw [hrole, if_pos hpar]
      have htrim : trimHistory messages = messages.drop start := by
        simp only [trimHistory, if_pos hlen, ← hstartdef, hget, hu]
        simp
      refine ⟨?_, ?_, ?_, ?_⟩
      · rw [htrim, List.length_drop]; omega
      · exact ⟨_, _, by rw [htrim, hkeep], hu⟩
      · rw [htrim]; exact List.drop_suffix start messages
      · intro _
        have hu2 := hu
        rw [List.get_eq_getElem] at hu2
        simp only [← hstartdef, htrim, hh]
        simp [hu2]
    · -- oldest survivor is an assistant message: drop it too
      have hstart1 : start + 1 < messages.length := by omega
      have ha : (messages.get ⟨start, hstart⟩).role = MessageRole.assistant := by
        rw [hrole, if_neg hpar]
      have htrim : trimHistory messages = messages.drop (start + 1) := by
        simp only [trimHistory, if_pos hlen, ← hstartdef, hget, ha]
        simp
      have hkeep1 : messages.drop (start + 1) =
          messages.get ⟨start + 1, hstart1⟩ :: messages.drop (start + 2) :=
        List.drop_eq_getElem_cons hstart1
      have hu : (messages.get ⟨start + 1, hstart1⟩).role = MessageRole.user := by
        rw [halt (start + 1) hstart1, if_pos (by omega)]
      refine ⟨?_, ?_, ?_, ?_⟩
      · rw [htrim, List.length_drop]; omega
      · exact ⟨_, _, by rw [htrim, hkeep1], hu⟩
      · rw [htrim]; exact List.drop_suffix (start + 1) messages
      · intro _
        have ha2 := ha
        rw [List.get_eq_getElem] at ha2
        simp only [← hstartdef, htrim, hh]
        simp [ha2, List.tail_drop]
  · have htrim : trimHistory messages = messages := by
      simp [trimHistory, hlen]
    cases messages with
    | nil => exact absurd rfl hne
    | cons m rest =>
      have h0 : 0 < (m :: rest).length := by simp
      have hrole := halt 0 h0
      refine ⟨?_, ⟨m, rest, htrim, ?_⟩, ?_, ?_⟩
      · rw [htrim]; omega
      · simpa using hrole
      · rw [htrim]
      · intro h; exact absurd h hlen

/-- Witness for claim C3 at a concrete three-message alternating
conversation. -/
theorem trim_history_spec_witness :
    (trimHistory
      [{ role := MessageRole.user, content := "a" },
       { role := MessageRole.assistant, content := "b" },
       { role := MessageRole.user, content := "c" }]).length ≤ MAX_HISTORY_MESSAGES :=
  (trim_history_spec
    [{ role := MessageRole.user, content := "a" },
     { role := MessageRole.assistant, content := "b" },
     { role := MessageRole.user, content := "c" }] (by decide) (by decide)).1


theorem taskComplete_generation (g : Nat) (st : AppState) (r : Except String String) :
    (taskComplete g st r).1.request_generation = st.request_generation := by
  unfold taskComplete
  split
  · cases r with
    | ok response => rfl
    | error err => simp only; split <;> rfl
  · rfl

theorem sysApply_generation_mono (g : Nat) (st : AppState) (e : SysStep) :
    st.request_generation ≤ (sysApply g st e).request_generation := by
  cases e with
  | task s =>
    cases s with
    | chunk txt =>
      have h : sysApply g st (SysStep.task (TaskStep.chunk txt)) =
          if txt ≠ "" ∧ st.request_generation = g then
            { st with streaming_response := st.streaming_response ++ txt }
          else st := rfl
      rw [h]; split_ifs <;> simp
    | finish r =>
      have h : sysApply g st (SysStep.task (TaskStep.finish r)) =
          (taskComplete g st r).1 := rfl
      rw [h, taskComplete_generation]
  | ui u =>
    cases u with
    | send t =>
      have h : (sysApply g st (SysStep.ui (UiStep.send t))).request_generation =
          st.request_generation + 1 := rfl
      rw [h]; exact Nat.le_succ _
    | cancel =>
      have h : sysApply g st (SysStep.ui UiStep.cancel) = cancelAction st := rfl
      rw [h]; unfold cancelAction
      split_ifs <;> exact Nat.le_succ _
    | clear =>
      have h : sysApply g st (SysStep.ui UiStep.clear) = clearAction st := rfl
      rw [h]; exact Nat.le_succ _

theorem sysRun_generation_mono (g : Nat) (tr : List SysStep) :
    ∀ st : AppState, st.request_generation ≤ (sysRun g st tr).request_generation := by
  induction tr with
  | nil => intro st; exact Nat.le_refl _
  | cons e rest ih =>
    intro st
    exact Nat.le_trans (sysApply_generation_mono g st e) (ih (sysApply g st e))

theorem taskWrites_false_of_ne (g : Nat) (st : AppState) (e : SysStep)
    (h : st.request_generation ≠ g) : taskWrites g st e = false := by
  cases e with
  | task s => cases s <;> simp [taskWrites, h]
  | ui u => rfl

theorem sysApply_task_fix (g : Nat) (st : AppState) (s : TaskStep)
    (h : st.request_generation ≠ g) : sysApply g st (SysStep.task s) = st := by
  cases s with
  | chunk txt => simp [sysApply, h]
  | finish r => simp [sysApply, taskComplete, h]

theorem taskWriteCount_eq_zero (g : Nat) (tr : List SysStep) :
    ∀ st : AppState, g < st.request_generation → taskWriteCount g st tr = 0 := by
  induction tr with
  | nil => intro st _; rfl
  | cons e rest ih =>
    intro st h
    have hne : st.request_generation ≠ g := by omega
    have hnext : g < (sysApply g st e).request_generation :=
      Nat.lt_of_lt_of_le h (sysApply_generation_mono g st e)
    simp [taskWriteCount, taskWrites_false_of_ne g st e hne, ih _ hnext]

theorem sysRun_task_only_fix (g : Nat) (tr : List SysStep) :
    ∀ st : AppState, g < st.request_generation → (∀ e ∈ tr, e.isTask = true) →
      sysRun g st tr = st := by
  induction tr with
  | nil => intro st _ _; rfl
  | cons e rest ih =>
    intro st h htask
    obtain ⟨s, hs⟩ : ∃ s, e = SysStep.task s := by
      cases e with
      | task s => exact ⟨s, rfl⟩
      | ui u => exact absurd (htask _ (List.mem_cons_self _ _)) (by simp [SysStep.isTask])
    subst hs
    have hne : st.request_generation ≠ g := by omega
    rw [sysRun, sysApply_task_fix g st s hne]
    exact ih st h (fun x hx => htask x (List.mem_cons_of_mem _ hx))

/-- Claim C2: for a background task spawned with captured generation g
(the send handler captures the just-bumped counter), once
request_generation has been set to any different value by later UI
activity, the task performs zero further writes to messages,
streaming_response or error, however the run continues; in fact every
remaining task step leaves the state unchanged. -/
theorem generation_guard (g : Nat) (s0 : AppState) (pre post : List SysStep)
    (h0 : s0.request_generation = g)
    (hbump : (sysRun g s0 pre).request_generation ≠ g) :
    taskWriteCount g (sysRun g s0 pre) post = 0 ∧
    ((∀ e ∈ post, e.isTask = true) →
      sysRun g (sysRun g s0 pre) post = sysRun g s0 pre) := by
  have hmono := sysRun_generation_mono g pre s0
  have hgt : g < (sysRun g s0 pre).request_generation := by omega
  exact ⟨taskWriteCount_eq_zero g post _ hgt,
    fun htask => sysRun_task_only_fix g post _ hgt htask⟩

/-- Witness for claim C2: after a cancel bumps the generation past the
task's captured value 1, a late chunk and the completion write nothing. -/
theorem generation_guard_witness :
    taskWriteCount 1 (sysRun 1 { request_generation := 1 } [SysStep.ui UiStep.cancel])
      [SysStep.task (TaskStep.chunk "hi"),
       SysStep.task (TaskStep.finish (Except.ok "done"))] = 0 :=
  (generation_guard 1 { request_generation := 1 } [SysStep.ui UiStep.cancel]
    [SysStep.task (TaskStep.chunk "hi"),
     SysStep.task (TaskStep.finish (Except.ok "done"))] rfl (by decide)).1


theorem updateBest_cases (t : Nat) (b : String) (w : WindowInfo) :
    updateBestTitle t b w = b ∨
      (w.pid = t ∧ w.visible = true ∧ updateBestTitle t b w = w.title) := by
  unfold updateBestTitle
  split_ifs with h1 h2 h3 h4
  · exact Or.inl rfl
  · exact Or.inr ⟨h1, h2, rfl⟩
  · exact Or.inl rfl
  · exact Or.inl rfl
  · exact Or.inl rfl

theorem updateBest_mono (t : Nat) (b : String) (w : WindowInfo) :
    b.utf8ByteSize ≤ (updateBestTitle t b w).utf8ByteSize := by
  unfold updateBestTitle
  split_ifs <;> omega

theorem updateBest_dominates (t : Nat) (b : String) (w : WindowInfo)
    (hp : w.pid = t) (hv : w.visible = true) :
    w.title.utf8ByteSize ≤ (updateBestTitle t b w).utf8ByteSize := by
  unfold updateBestTitle
  split_ifs <;> omega

theorem foldlBest_spec (target : Nat) (ws : List WindowInfo) :
    ∀ init : String,
      (ws.foldl (updateBestTitle target) init = init ∨
        ∃ w, w ∈ ws ∧ w.pid = target ∧ w.visible = true ∧
          ws.foldl (updateBestTitle target) init = w.title) ∧
      init.utf8ByteSize ≤ (ws.foldl (updateBestTitle target) init).utf8ByteSize ∧
      (∀ w, w ∈ ws → w.pid = target → w.visible = true →
        w.title.utf8ByteSize ≤ (ws.foldl (updateBestTitle target) init).utf8ByteSize) := by
  induction ws with
  | nil =>
    intro init
    exact ⟨Or.inl rfl, Nat.le_refl _, fun w hw => absurd hw (List.not_mem_nil w)⟩
  | cons w ws ih =>
    intro init
    have hfold : (w :: ws).foldl (updateBestTitle target) init =
        ws.foldl (updateBestTitle target) (updateBestTitle target init w) := rfl
    refine ⟨?_, ?_, ?_⟩
    · rw [hfold]
      rcases (ih (updateBestTitle target init w)).1 with h | ⟨w2, hmem, hp, hv, heq⟩
      · rcases updateBest_cases target init w with h0 | ⟨hp, hv, h0⟩
        · exact Or.inl (by rw [h, h0])
        · exact Or.inr ⟨w, List.mem_cons_self w ws, hp, hv, by rw [h, h0]⟩
      · exact Or.inr ⟨w2, List.mem_cons_of_mem w hmem, hp, hv, heq⟩
    · rw [hfold]
      exact Nat.le_trans (updateBest_mono target init w)
        ((ih (updateBestTitle target init w)).2.1)
    · intro w2 hmem hp hv
      rw [hfold]
      rcases List.mem_cons.mp hmem with h | h
      · subst h
        exact Nat.le_trans (updateBest_dominates target init w2 hp hv)
          ((ih (updateBestTitle target init w2)).2.1)
      · exact (ih (updateBestTitle target init w)).2.2 w2 h hp hv

/-- Claim C6: the identity detector returns the first non-empty of the
config override, the window-title tier and the cleaned executable name;
a title the window tier returns is usable and is the trim of a visible
window of the process whose raw title length is maximal among the
process's visible windows; and the config override is the display name of
the first entry whose process filename matches the executable
case-insensitively. -/
theorem detect_game_name_spec (games : List GameEntry) (exe? : Option String)
    (target : Nat) (ws : List WindowInfo) :
    (∀ n, name_from_config games exe? = some n →
      detect_game_name games exe? target ws = some n) ∧
    (name_from_config games exe? = none →
      ∀ t, name_from_window_title target ws = some t →
        detect_game_name games exe? target ws = some t) ∧
    (name_from_config games exe? = none → name_from_window_title target ws = none →
      detect_game_name games exe? target ws = exe?.bind name_from_exe) ∧
    (∀ t, name_from_window_title target ws = some t →
      is_usable_title t = true ∧
      ∃ w, w ∈ ws ∧ w.pid = target ∧ w.visible = true ∧ t = strTrim w.title ∧
        ∀ w2, w2 ∈ ws → w2.pid = target → w2.visible = true →
          w2.title.utf8ByteSize ≤ w.title.utf8ByteSize) ∧
    (∀ e, exe? = some e →
      name_from_config games exe? =
        (games.find? fun g => strToLower g.process = strToLower e).bind
          fun g => g.name) := by
  refine ⟨?_, ?_, ?_, ?_, ?_⟩
  · intro n h; simp [detect_game_name, h]
  · intro h t ht; simp [detect_game_name, h, ht]
  · intro h ht; simp [detect_game_name, h, ht]
  · intro t ht
    have ht2 : (if is_usable_title (strTrim (bestTitle target ws)) = true then
        some (strTrim (bestTitle target ws)) else none) = some t := ht
    clear ht
    split at ht2
    · next husable =>
      injection ht2 with ht2
      subst ht2
      rcases (foldlBest_spec target ws "").1 with h0 | ⟨w, hmem, hp, hv, heq⟩
      · rw [show bestTitle target ws = ws.foldl (updateBestTitle target) "" from rfl,
          h0] at husable
        exact absurd husable (by decide)
      · rw [show bestTitle target ws = ws.foldl (updateBestTitle target) "" from rfl,
          heq] at husable ⊢
        refine ⟨husable, w, hmem, hp, hv, rfl, ?_⟩
        intro w2 hmem2 hp2 hv2
        have := (foldlBest_spec target ws "").2.2 w2 hmem2 hp2 hv2
        rw [show ws.foldl (updateBestTitle target) "" = w.title from heq] at this
        exact this
    · exact absurd ht2 (by simp)
  · intro e he
    subst he
    rfl

/-- Witness for claim C6: a configured override resolves the name. -/
theorem detect_game_name_spec_witness :
    detect_game_name [{ name := some "Elden Ring", process := "eldenring.exe" }]
      (some "ELDENRING.EXE") 7 [] = some "Elden Ring" :=
  (detect_game_name_spec [{ name := some "Elden Ring", process := "eldenring.exe" }]
    (some "ELDENRING.EXE") 7 []).1 "Elden Ring" (by decide)

end Companion
